import Mathlib

/-!
Verification of the unified media-playback control surface: a shallow
embedding of the video-session state machine (VideoProvider), the
player-local countdown logic (UnifiedPlayer), the transport operations of
the custom player (YouTubePlayer: skip, seek, volume, mute), the double-tap
gesture disambiguator, and the external iframe-API loader.
-/

namespace Spec2Proof

/-! ## Data model -/

/-- Embeds `VideoContent` from the repository's types: the fields the
control surface reads (`slug` identifies, `mediaUrl`/`mediaType` select the
backend). -/
structure VideoContent where
  slug : String
  title : String
  mediaUrl : String
  mediaType : String
  deriving DecidableEq, Repr

/-- Embeds `Category` (slug, name, icon). -/
structure Category where
  slug : String
  name : String
  deriving DecidableEq, Repr

/-- Embeds `CategoryWithContents`: one category plus its ordered content
list. -/
structure CategoryWithContents where
  category : Category
  contents : List VideoContent
  deriving DecidableEq, Repr

/-! ## Session state machine (VideoProvider in UnifiedPlayer.tsx) -/

/-- The process-wide session state held by `VideoProvider`:
`currentVideo`, `currentCategory`, `isPlayerOpen`, `isMinimized`,
`useCustomPlayerForYouTube`. -/
structure SessionState where
  currentVideo : Option VideoContent
  currentCategory : Option CategoryWithContents
  isPlayerOpen : Bool
  isMinimized : Bool
  useCustomPlayerForYouTube : Bool
  deriving DecidableEq, Repr

/-- The initial session state: all `useState` initializers of
`VideoProvider` (`null`, `null`, `false`, `false`, `true`). -/
def initialSession : SessionState :=
  { currentVideo := none
    currentCategory := none
    isPlayerOpen := false
    isMinimized := false
    useCustomPlayerForYouTube := true }

/-- Embeds the derived `relatedVideos`:
`currentCategory.contents.filter((v) => v.slug !== currentVideo?.slug)`;
when `currentVideo` is null the optional-chain slug is `undefined` and the
filter keeps every element. -/
def relatedVideos (s : SessionState) : List VideoContent :=
  match s.currentCategory with
  | none => []
  | some cat =>
      cat.contents.filter (fun v =>
        match s.currentVideo with
        | none => true
        | some cv => v.slug != cv.slug)

/-- Embeds `openVideo(video, category)`: sets video/category, opens the
player, un-minimizes. -/
def openVideo (v : VideoContent) (c : CategoryWithContents) (s : SessionState) : SessionState :=
  { s with currentVideo := some v, currentCategory := some c,
           isPlayerOpen := true, isMinimized := false }

/-- Embeds `closeVideo()`: closes, un-minimizes, clears video/category. -/
def closeVideo (s : SessionState) : SessionState :=
  { s with isPlayerOpen := false, isMinimized := false,
           currentVideo := none, currentCategory := none }

/-- Embeds `selectVideo(video, category)`: replaces video/category only;
the open/minimized flags are untouched. -/
def selectVideo (v : VideoContent) (c : CategoryWithContents) (s : SessionState) : SessionState :=
  { s with currentVideo := some v, currentCategory := some c }

/-- Embeds `minimizePlayer()`: `setIsMinimized(true)` with no guard on
`isPlayerOpen`. -/
def minimizePlayer (s : SessionState) : SessionState :=
  { s with isMinimized := true }

/-- Embeds `restorePlayer()`: `setIsMinimized(false)`. -/
def restorePlayer (s : SessionState) : SessionState :=
  { s with isMinimized := false }

/-- Embeds `closeMiniPlayer()`: same field writes as `closeVideo`. -/
def closeMiniPlayer (s : SessionState) : SessionState :=
  { s with isMinimized := false, isPlayerOpen := false,
           currentVideo := none, currentCategory := none }

/-- One session-controller operation, as invocable from the UI. -/
inductive SessionOp where
  | openV (v : VideoContent) (c : CategoryWithContents)
  | close
  | select (v : VideoContent) (c : CategoryWithContents)
  | minimize
  | restore
  | closeMini
  deriving DecidableEq, Repr

/-- Applies one operation to the session state. -/
def applyOp (s : SessionState) : SessionOp → SessionState
  | .openV v c => openVideo v c s
  | .close => closeVideo s
  | .select v c => selectVideo v c s
  | .minimize => minimizePlayer s
  | .restore => restorePlayer s
  | .closeMini => closeMiniPlayer s

/-- Runs a sequence of operations from the initial empty session state. -/
def runOps (ops : List SessionOp) : SessionState :=
  ops.foldl applyOp initialSession

/-- Holds when, along the trace started at `s`, every `minimize` operation
is invoked in a state whose player is open. -/
def minimizeGuardedFrom (s : SessionState) : List SessionOp → Bool
  | [] => true
  | op :: rest =>
      (match op with
       | SessionOp.minimize => s.isPlayerOpen
       | _ => true) && minimizeGuardedFrom (applyOp s op) rest

lemma applyOp_preserves_min_imp_open (s : SessionState) (op : SessionOp)
    (hop : op = SessionOp.minimize → s.isPlayerOpen = true)
    (hinv : s.isMinimized = true → s.isPlayerOpen = true) :
    (applyOp s op).isMinimized = true → (applyOp s op).isPlayerOpen = true := by
  cases op with
  | openV v c => intro _; rfl
  | close => intro h; exact absurd h (by simp [applyOp, closeVideo])
  | select v c => simpa [applyOp, selectVideo] using hinv
  | minimize => intro _; simpa [applyOp, minimizePlayer] using hop rfl
  | restore => intro h; exact absurd h (by simp [applyOp, restorePlayer])
  | closeMini => intro h; exact absurd h (by simp [applyOp, closeMiniPlayer])

lemma foldl_preserves_min_imp_open (ops : List SessionOp) (s : SessionState)
    (hg : minimizeGuardedFrom s ops = true)
    (hinv : s.isMinimized = true → s.isPlayerOpen = true) :
    (ops.foldl applyOp s).isMinimized = true → (ops.foldl applyOp s).isPlayerOpen = true := by
  induction ops generalizing s with
  | nil => simpa using hinv
  | cons op rest ih =>
      simp only [minimizeGuardedFrom, Bool.and_eq_true] at hg
      refine ih (applyOp s op) hg.2 ?_
      refine applyOp_preserves_min_imp_open s op ?_ hinv
      intro hmin
      subst hmin
      exact hg.1

/-- A sample video used only in witness statements. -/
def vidA : VideoContent :=
  { slug := "alpha", title := "Alpha", mediaUrl := "https://example.com/a.mp4", mediaType := "MP4" }

/-- A second sample video. -/
def vidB : VideoContent :=
  { slug := "beta", title := "Beta", mediaUrl := "https://example.com/b.mp4", mediaType := "MP4" }

/-- A third sample video. -/
def vidC : VideoContent :=
  { slug := "gamma", title := "Gamma", mediaUrl := "https://example.com/c.mp4", mediaType := "MP4" }

/-- A sample category holding the three sample videos. -/
def catABC : CategoryWithContents :=
  { category := { slug := "cat", name := "Cat" }, contents := [vidA, vidB, vidC] }

/-- C1: the claimed invariant fails on the code as stated: `minimizePlayer`
sets `isMinimized` with no guard, so invoking it from the initial (closed)
state reaches `isMinimized = true` with `isPlayerOpen = false`. -/
theorem minimize_unguarded_counterexample :
    (runOps [SessionOp.minimize]).isMinimized = true ∧
      (runOps [SessionOp.minimize]).isPlayerOpen = false := by
  constructor <;> rfl

/-- C1 (amended): along every operation sequence from the initial state in
which `minimizePlayer` is only invoked while the player is open, the session
never has `isMinimized = true` with `isPlayerOpen = false`; `minimizePlayer`
itself sets `isMinimized` unconditionally. -/
theorem minimized_imp_open_of_guarded (ops : List SessionOp)
    (hg : minimizeGuardedFrom initialSession ops = true) :
    (runOps ops).isMinimized = true → (runOps ops).isPlayerOpen = true := by
  exact foldl_preserves_min_imp_open ops initialSession hg (by intro h; cases h)

/-- C1 witness: a concrete guarded trace (open then minimize) satisfies the
guard and the invariant. -/
theorem minimized_imp_open_of_guarded_witness :
    minimizeGuardedFrom initialSession [SessionOp.openV vidA catABC, SessionOp.minimize] = true ∧
      ((runOps [SessionOp.openV vidA catABC, SessionOp.minimize]).isMinimized = true →
        (runOps [SessionOp.openV vidA catABC, SessionOp.minimize]).isPlayerOpen = true) :=
  ⟨by decide, minimized_imp_open_of_guarded [SessionOp.openV vidA catABC, SessionOp.minimize] (by decide)⟩

/-! ## Player-local countdown state machine (UnifiedPlayer, complete variant)

Embeds the auto-advance logic of the most complete `UnifiedPlayer` variant:
`handleEnded`, `cancelCountdown`, `handleRelatedSelect`, and the countdown
interval effect (which clears any previous interval before starting one, so
the timer is singular; `intervalActive` models whether
`countdownIntervalRef.current` holds a live interval). -/

/-- The player component state: session plus `showCountdown`,
`countdown`/`countdownValueRef`, the interval handle, and `nextVideoRef`. -/
structure PlayerState where
  session : SessionState
  showCountdown : Bool
  countdownValue : Int
  intervalActive : Bool
  nextVideoRef : Option (VideoContent × CategoryWithContents)
  deriving DecidableEq, Repr

/-- The player mounted with no countdown in flight. -/
def initialPlayer : PlayerState :=
  { session := initialSession
    showCountdown := false
    countdownValue := 2
    intervalActive := false
    nextVideoRef := none }

/-- Opens a video through the session controller; the countdown fields are
component-local and unaffected. -/
def playerOpen (v : VideoContent) (c : CategoryWithContents) (p : PlayerState) : PlayerState :=
  { p with session := openVideo v c p.session }

/-- Embeds `handleEnded`: returns unless a category is set and
`relatedVideos` is non-empty; otherwise records `relatedVideos[0]` with the
current category in `nextVideoRef` and starts the 2-second countdown (the
`showCountdown` effect then starts the interval, clearing any previous
one). -/
def handleEnded (p : PlayerState) : PlayerState :=
  match p.session.currentCategory, relatedVideos p.session with
  | some cat, next :: _ =>
      { p with nextVideoRef := some (next, cat)
               showCountdown := true
               countdownValue := 2
               intervalActive := true }
  | _, _ => p

/-- Embeds `cancelCountdown`: clears the interval, resets the countdown to
2, and clears `nextVideoRef`. -/
def cancelCountdown (p : PlayerState) : PlayerState :=
  { p with intervalActive := false
           showCountdown := false
           countdownValue := 2
           nextVideoRef := none }

/-- Embeds one firing of the countdown interval: decrements the value; at
zero, selects the pending next video, clears the interval and the pending
reference, and resets. A cleared interval never fires. -/
def tick (p : PlayerState) : PlayerState :=
  if p.intervalActive = false then p
  else
    let nextValue := p.countdownValue - 1
    if nextValue ≤ 0 then
      { session :=
          match p.nextVideoRef with
          | some (v, c) => selectVideo v c p.session
          | none => p.session
        showCountdown := false
        countdownValue := 2
        intervalActive := false
        nextVideoRef := none }
    else
      { p with countdownValue := nextValue }

/-- Embeds `handleRelatedSelect(video)`: returns unless a category is set;
otherwise cancels any in-flight countdown and then selects the video in the
current category. -/
def handleRelatedSelect (v : VideoContent) (p : PlayerState) : PlayerState :=
  match p.session.currentCategory with
  | none => p
  | some cat => { cancelCountdown p with session := selectVideo v cat (cancelCountdown p).session }

/-- C2: auto-advance over a category with contents [A,B,C] and current
video B. On playback-ended the pending next is `relatedVideos[0] = A`;
canceling leaves the current video B and clears the pending reference;
letting the 2-second countdown elapse (two interval firings) selects A; and
with empty `relatedVideos` no countdown is started. -/
theorem auto_advance_behavior (A B C : VideoContent) (cat0 : Category)
    (hAB : A.slug ≠ B.slug) (hCB : C.slug ≠ B.slug) :
    (handleEnded (playerOpen B ⟨cat0, [A, B, C]⟩ initialPlayer)).nextVideoRef
        = some (A, ⟨cat0, [A, B, C]⟩) ∧
    (handleEnded (playerOpen B ⟨cat0, [A, B, C]⟩ initialPlayer)).showCountdown = true ∧
    (cancelCountdown (handleEnded (playerOpen B ⟨cat0, [A, B, C]⟩ initialPlayer))).session.currentVideo
        = some B ∧
    (cancelCountdown (handleEnded (playerOpen B ⟨cat0, [A, B, C]⟩ initialPlayer))).nextVideoRef
        = none ∧
    (tick (tick (handleEnded (playerOpen B ⟨cat0, [A, B, C]⟩ initialPlayer)))).session.currentVideo
        = some A ∧
    (∀ q : PlayerState, relatedVideos q.session = [] → handleEnded q = q) := by
  have hA : (A.slug != B.slug) = true := by simpa using hAB
  have hC : (C.slug != B.slug) = true := by simpa using hCB
  have hrel : relatedVideos
      { currentVideo := some B, currentCategory := some ⟨cat0, [A, B, C]⟩,
        isPlayerOpen := true, isMinimized := false, useCustomPlayerForYouTube := true }
      = [A, C] := by
    simp [relatedVideos, List.filter, hA, hC]
  have hE : handleEnded (playerOpen B ⟨cat0, [A, B, C]⟩ initialPlayer) =
      { session := openVideo B ⟨cat0, [A, B, C]⟩ initialSession
        showCountdown := true
        countdownValue := 2
        intervalActive := true
        nextVideoRef := some (A, ⟨cat0, [A, B, C]⟩) } := by
    simp [handleEnded, hrel, playerOpen, openVideo, initialPlayer, initialSession]
  refine ⟨by rw [hE], by rw [hE], ?_, by rw [hE]; rfl, ?_, ?_⟩
  · rw [hE]; rfl
  · rw [hE]
    simp [tick, selectVideo]
  · intro q hq
    cases hcat : q.session.currentCategory <;> simp [handleEnded, hq, hcat]

/-- C2 witness: the concrete sample category [alpha, beta, gamma] with
current video beta auto-advances to alpha. -/
theorem auto_advance_behavior_witness :
    vidA.slug ≠ vidB.slug ∧
      (tick (tick (handleEnded (playerOpen vidB catABC initialPlayer)))).session.currentVideo
        = some vidA := by
  have h := auto_advance_behavior vidA vidB vidC { slug := "cat", name := "Cat" }
    (by decide) (by decide)
  exact ⟨by decide, h.2.2.2.2.1⟩

/-- C8: selecting a video from the related list cancels any in-flight
countdown (interval cleared, pending-next cleared, overlay hidden) and
replaces the current video within the current category; afterwards no
number of interval firings changes the state, so the countdown can never
cause a second switch. -/
theorem related_select_cancels_countdown (p : PlayerState) (v : VideoContent)
    (cat : CategoryWithContents) (hcat : p.session.currentCategory = some cat) :
    (handleRelatedSelect v p).session.currentVideo = some v ∧
    (handleRelatedSelect v p).session.currentCategory = some cat ∧
    (handleRelatedSelect v p).showCountdown = false ∧
    (handleRelatedSelect v p).intervalActive = false ∧
    (handleRelatedSelect v p).nextVideoRef = none ∧
    (∀ n : ℕ, tick^[n] (handleRelatedSelect v p) = handleRelatedSelect v p) := by
  have hsel : handleRelatedSelect v p =
      { session := selectVideo v cat (cancelCountdown p).session
        showCountdown := false
        countdownValue := 2
        intervalActive := false
        nextVideoRef := none } := by
    simp [handleRelatedSelect, hcat, cancelCountdown]
  refine ⟨by rw [hsel]; rfl, by rw [hsel]; rfl, by rw [hsel], by rw [hsel], by rw [hsel], ?_⟩
  intro n
  refine Function.iterate_fixed ?_ n
  rw [hsel]
  simp [tick]

/-- C8 witness: selecting gamma while beta's ended-countdown is in flight
cancels the countdown and makes gamma current. -/
theorem related_select_cancels_countdown_witness :
    (handleRelatedSelect vidC (handleEnded (playerOpen vidB catABC initialPlayer))).session.currentVideo
        = some vidC ∧
      (handleRelatedSelect vidC (handleEnded (playerOpen vidB catABC initialPlayer))).intervalActive
        = false := by
  have h := related_select_cancels_countdown
    (handleEnded (playerOpen vidB catABC initialPlayer)) vidC catABC (by decide)
  exact ⟨h.1, h.2.2.2.1⟩

/-! ## Transport operations (YouTubePlayer.tsx)

Embeds the custom-control operations `skip`, `seek`, the volume slider and
`toggleMute` over the component state they read and write. Times are
modelled as rationals; the playback position (`currentTime`) stands for the
backend position that `skip`/`seek` assign. -/

/-- The player component state that the transport operations touch:
readiness/controllability flags, position, duration, volume, mute, and the
transient skip pulse (`some true` = forward, `some false` = back). -/
structure AdapterState where
  effectiveReady : Bool
  isControllable : Bool
  currentTime : ℚ
  duration : ℚ
  volume : ℚ
  isMuted : Bool
  skipAnim : Option Bool
  deriving DecidableEq, Repr

/-- Embeds `skip(delta)`: returns unchanged unless ready, controllable and
`duration ≠ 0`; otherwise sets the position to
`Math.max(0, Math.min(duration, currentTime + delta))` and triggers the
direction-keyed pulse. -/
def skip (delta : ℚ) (st : AdapterState) : AdapterState :=
  if st.effectiveReady = false ∨ st.duration = 0 ∨ st.isControllable = false then st
  else
    { st with currentTime := max 0 (min st.duration (st.currentTime + delta))
              skipAnim := some (decide (delta > 0)) }

/-- Embeds `seek(percent)`: returns unchanged unless ready, controllable
and `duration ≠ 0`; otherwise sets the position to
`(pct / 100) * duration`. -/
def seek (pct : ℚ) (st : AdapterState) : AdapterState :=
  if st.effectiveReady = false ∨ st.duration = 0 ∨ st.isControllable = false then st
  else { st with currentTime := pct / 100 * st.duration }

/-- Embeds the volume slider change handler: `setVolume` writes the volume
field only. -/
def setVolume (v : ℚ) (st : AdapterState) : AdapterState :=
  { st with volume := v }

/-- Embeds `toggleMute`: `setIsMuted((value) => !value)`. -/
def toggleMute (st : AdapterState) : AdapterState :=
  { st with isMuted := !st.isMuted }

/-- The audio command the volume/mute sync effect pushes to the embedded
widget: `mute()` when muted, else `unMute()` then
`setVolume(Math.round(volume * 100))`. It reads component state and writes
none of it. -/
inductive AudioCommand where
  | muteCmd
  | unmuteAndSet (level : ℤ)
  deriving DecidableEq, Repr

/-- The command computed by the sync effect from the current state. -/
def syncAudioCommand (st : AdapterState) : AudioCommand :=
  if st.isMuted then .muteCmd else .unmuteAndSet (round (st.volume * 100))

/-- A ready, controllable, unmuted sample state at position t with duration
D, used only in witness statements. -/
def readyState (t D : ℚ) : AdapterState :=
  { effectiveReady := true
    isControllable := true
    currentTime := t
    duration := D
    volume := 1
    isMuted := false
    skipAnim := none }

/-- C3: on a ready, controllable state with known positive duration, `skip`
lands exactly on `clamp(t + delta, 0, D)`; the result is never negative and
never exceeds the duration. -/
theorem skip_clamps (delta : ℚ) (st : AdapterState)
    (hready : st.effectiveReady = true) (hctrl : st.isControllable = true)
    (hdur : 0 < st.duration) :
    (skip delta st).currentTime = max 0 (min st.duration (st.currentTime + delta)) ∧
    0 ≤ (skip delta st).currentTime ∧
    (skip delta st).currentTime ≤ st.duration := by
  have hguard : ¬ (st.effectiveReady = false ∨ st.duration = 0 ∨ st.isControllable = false) := by
    simp [hready, hctrl, hdur.ne']
  have hval : (skip delta st).currentTime = max 0 (min st.duration (st.currentTime + delta)) := by
    simp [skip, hguard]
  refine ⟨hval, ?_, ?_⟩
  · rw [hval]; exact le_max_left 0 _
  · rw [hval]
    exact max_le hdur.le (min_le_left _ _)

/-- C3 witness: skipping −10 from t = 3 with D = 60 clamps to 0, within
bounds. -/
theorem skip_clamps_witness :
    (skip (-10) (readyState 3 60)).currentTime = max 0 (min 60 (3 + (-10))) ∧
    0 ≤ (skip (-10) (readyState 3 60)).currentTime := by
  have h := skip_clamps (-10) (readyState 3 60) rfl rfl (by norm_num [readyState])
  exact ⟨h.1, h.2.1⟩

/-- C4: on a ready, controllable state with positive duration, seeking to
percent p lands exactly on `(p / 100) * D`; percent 0 lands on 0 and
percent 100 lands on D. -/
theorem seek_percent_exact (pct : ℚ) (st : AdapterState)
    (hready : st.effectiveReady = true) (hctrl : st.isControllable = true)
    (hdur : 0 < st.duration) :
    (seek pct st).currentTime = pct / 100 * st.duration ∧
    (seek 0 st).currentTime = 0 ∧
    (seek 100 st).currentTime = st.duration := by
  have hguard : ¬ (st.effectiveReady = false ∨ st.duration = 0 ∨ st.isControllable = false) := by
    simp [hready, hctrl, hdur.ne']
  refine ⟨by simp [seek, hguard], by simp [seek, hguard], by simp [seek, hguard]⟩

/-- C4 witness: seeking to 100% of a 42-second video lands on 42. -/
theorem seek_percent_exact_witness :
    (seek 100 (readyState 7 42)).currentTime = 42 := by
  exact (seek_percent_exact 100 (readyState 7 42) rfl rfl (by norm_num [readyState])).2.2

/-- C9: when the state is not ready, has zero duration, or is not
controllable, `skip` and `seek` return the state entirely unchanged (the
guard returns before any assignment; nothing is thrown). -/
theorem skip_seek_noop_when_not_ready (delta pct : ℚ) (st : AdapterState)
    (h : st.effectiveReady = false ∨ st.duration = 0 ∨ st.isControllable = false) :
    skip delta st = st ∧ seek pct st = st := by
  constructor <;> simp [skip, seek, h]

/-- C9 witness: with duration 0, a +10 skip and a 50% seek both leave the
state untouched. -/
theorem skip_seek_noop_when_not_ready_witness :
    skip 10 (readyState 5 0) = readyState 5 0 ∧ seek 50 (readyState 5 0) = readyState 5 0 :=
  skip_seek_noop_when_not_ready 10 50 (readyState 5 0) (Or.inr (Or.inl rfl))

/-- C10: `isMuted` and `volume` are independent: setting any volume
(including 0) never changes `isMuted`, and toggling mute never changes the
volume. -/
theorem volume_mute_independent (st : AdapterState) (v : ℚ) :
    (setVolume v st).isMuted = st.isMuted ∧
    (setVolume 0 st).isMuted = st.isMuted ∧
    (toggleMute st).volume = st.volume ∧
    (setVolume v st).volume = v ∧
    (toggleMute st).isMuted = !st.isMuted :=
  ⟨rfl, rfl, rfl, rfl, rfl⟩

/-! ## Double-tap gesture disambiguator (handleCustomModeTouchEnd)

Embeds the tap memory (`lastTapAtRef`, `lastTapSideRef`) and one touch-end
event: a tap within 320ms of a remembered tap on the same half fires a skip
and clears the memory; any other tap fires nothing and becomes the new
memory. -/

/-- Which half of the surface a tap landed on. -/
inductive TapSide where
  | left
  | right
  deriving DecidableEq, Repr

/-- Classifies a tap by its x-coordinate against the horizontal midpoint:
`touchX < rect.width / 2` is the left half. -/
def tapSideOf (touchX width : ℚ) : TapSide :=
  if touchX < width / 2 then .left else .right

/-- The tap memory: `lastTapAtRef` (initially 0) and `lastTapSideRef`
(initially null). Timestamps are milliseconds as integers. -/
structure TapState where
  lastTapAt : ℤ
  lastTapSide : Option TapSide
  deriving DecidableEq, Repr

/-- The refs at mount: `lastTapAtRef = 0`, `lastTapSideRef = null`. -/
def initialTapState : TapState :=
  { lastTapAt := 0, lastTapSide := none }

/-- The skip delta fired by a double tap on the given half. -/
def tapSkipDelta : TapSide → ℤ
  | .left => -10
  | .right => 10

/-- Embeds `handleCustomModeTouchEnd` for a controllable surface: computes
`isDoubleTap = (now - lastTapAt < 320 && lastTapSide === side)`; a double
tap fires the half's skip and resets the memory to (0, null); otherwise the
tap is remembered and nothing fires. Returns the new memory and the fired
skip delta, if any. When not controllable the handler returns with no
effect. -/
def touchEnd (isControllable : Bool) (side : TapSide) (now : ℤ) (st : TapState) :
    TapState × Option ℤ :=
  if isControllable = false then (st, none)
  else if now - st.lastTapAt < 320 ∧ st.lastTapSide = some side then
    ({ lastTapAt := 0, lastTapSide := none }, some (tapSkipDelta side))
  else
    ({ lastTapAt := now, lastTapSide := some side }, none)

/-- Runs a list of (side, timestamp) taps on a controllable surface,
collecting every fired skip in order. -/
def runTaps (st : TapState) : List (TapSide × ℤ) → TapState × List ℤ
  | [] => (st, [])
  | (side, now) :: rest =>
      let step := touchEnd true side now st
      let tail := runTaps step.1 rest
      (tail.1, (step.2.toList) ++ tail.2)

/-- C5: from a fresh tap memory, (i) two taps on the same half within 320ms
fire exactly one skip (the half's ±10) and clear the memory; (ii) a tap on
one half followed within 320ms by a tap on the other half fires nothing and
the second tap becomes the memory; (iii) a lone tap fires nothing and is
remembered; (iv) three same-half taps each within 320ms of the previous
still fire exactly one skip, because the double tap reset the memory. -/
theorem double_tap_disambiguation (s t : TapSide) (t1 t2 t3 : ℤ)
    (hst : s ≠ t) (h12 : t2 - t1 < 320) (h23 : t3 - t2 < 320) :
    runTaps initialTapState [(s, t1), (s, t2)] = (initialTapState, [tapSkipDelta s]) ∧
    runTaps initialTapState [(s, t1), (t, t2)] = (⟨t2, some t⟩, []) ∧
    runTaps initialTapState [(s, t1)] = (⟨t1, some s⟩, []) ∧
    runTaps initialTapState [(s, t1), (s, t2), (s, t3)] = (⟨t3, some s⟩, [tapSkipDelta s]) := by
  have hfirst : touchEnd true s t1 initialTapState = (⟨t1, some s⟩, none) := by
    simp [touchEnd, initialTapState]
  have hsecond : touchEnd true s t2 ⟨t1, some s⟩ = (initialTapState, some (tapSkipDelta s)) := by
    simp [touchEnd, initialTapState, h12]
  have hother : touchEnd true t t2 ⟨t1, some s⟩ = (⟨t2, some t⟩, none) := by
    simp [touchEnd]
    exact fun _ => hst
  have hthird : touchEnd true s t3 initialTapState = (⟨t3, some s⟩, none) := by
    simp [touchEnd, initialTapState]
  refine ⟨?_, ?_, ?_, ?_⟩ <;>
    simp [runTaps, hfirst, hsecond, hother, hthird]

/-- C5 witness: concrete taps at 100ms/200ms/300ms on the left half fire a
single −10 skip; a left tap then a right tap fires none. -/
theorem double_tap_disambiguation_witness :
    runTaps initialTapState [(TapSide.left, 100), (TapSide.left, 200)]
        = (initialTapState, [-10]) ∧
      runTaps initialTapState
          [(TapSide.left, 100), (TapSide.left, 200), (TapSide.left, 300)]
        = (⟨300, some TapSide.left⟩, [-10]) := by
  have h := double_tap_disambiguation TapSide.left TapSide.right 100 200 300
    (by decide) (by decide) (by decide)
  exact ⟨h.1, h.2.2.2⟩

/-! ## External-API loader (loadYouTubeIframeApi)

Embeds the module-level loader: the memoized `youtubeApiPromise` (promises
are named by numeric ids), the global readiness flag (`window.YT?.Player`),
the script tag (`getElementById` guard plus `appendChild`), and the settle
logic (`resolveReady` / `rejectLoad`, which clears the memoized promise
before rejecting). Since all callers of one promise receive its single
value, two calls returning the same promise id resolve to the same API
handle. -/

/-- How a loader promise settles. -/
inductive POutcome where
  | resolvedHandle
  | rejectedTimeout
  | rejectedLoadFailure
  deriving DecidableEq, Repr

/-- What one loader call returns: an immediately-resolved promise carrying
the global handle, or the shared in-flight promise. -/
inductive LoadResult where
  | immediate
  | pending (id : ℕ)
  deriving DecidableEq, Repr

/-- The process-wide loader state. -/
structure LoaderState where
  apiReady : Bool
  inFlight : Option ℕ
  nextPromiseId : ℕ
  scriptCount : ℕ
  domHasScript : Bool
  outcomes : List (ℕ × POutcome)
  deriving DecidableEq, Repr

/-- The loader before any call: no promise, no script, API absent. -/
def initialLoader : LoaderState :=
  { apiReady := false
    inFlight := none
    nextPromiseId := 0
    scriptCount := 0
    domHasScript := false
    outcomes := [] }

/-- Embeds one call to `loadYouTubeIframeApi` in the browser: resolves
immediately when `window.YT?.Player` exists; otherwise returns the existing
in-flight promise; otherwise creates a new promise, injecting the script
tag only when `getElementById` finds none. -/
def ensureLoaded (st : LoaderState) : LoaderState × LoadResult :=
  if st.apiReady then (st, .immediate)
  else
    match st.inFlight with
    | some id => (st, .pending id)
    | none =>
        let id := st.nextPromiseId
        let withScript :=
          if st.domHasScript then st
          else { st with scriptCount := st.scriptCount + 1, domHasScript := true }
        ({ withScript with inFlight := some id, nextPromiseId := id + 1 }, .pending id)

/-- Records a settle of promise `id` (the closure-local `settled` flag is
the absence of a recorded outcome). -/
def settle (st : LoaderState) (id : ℕ) (o : POutcome) : LoaderState :=
  { st with outcomes := (id, o) :: st.outcomes }

/-- Whether promise `id` has not settled yet. -/
def unsettled (st : LoaderState) (id : ℕ) : Bool :=
  (List.lookup id st.outcomes).isNone

/-- The loader-affecting events of the process. -/
inductive LoaderEvent where
  | call
  | apiArrives
  | timeoutFires
  | scriptFails
  deriving DecidableEq, Repr

/-- One loader event: `call` runs `loadYouTubeIframeApi`; `apiArrives`
models the script finishing (sets `window.YT`, fires the ready callback,
resolving the unsettled in-flight promise); `timeoutFires` models the
10-second timer (resolves if the API arrived meanwhile, else rejects with
the timeout error and nulls the memoized promise first); `scriptFails`
models the script tag's `onerror` (rejects with the load-failure error and
nulls the memoized promise first). -/
def stepLoader (st : LoaderState) : LoaderEvent → LoaderState
  | .call => (ensureLoaded st).1
  | .apiArrives =>
      let st1 := { st with apiReady := true }
      match st.inFlight with
      | some id => if unsettled st id then settle st1 id .resolvedHandle else st1
      | none => st1
  | .timeoutFires =>
      match st.inFlight with
      | some id =>
          if unsettled st id then
            if st.apiReady then settle st id .resolvedHandle
            else { settle st id .rejectedTimeout with inFlight := none }
          else st
      | none => st
  | .scriptFails =>
      match st.inFlight with
      | some id =>
          if unsettled st id then { settle st id .rejectedLoadFailure with inFlight := none }
          else st
      | none => st

/-- Runs a sequence of loader events from process start. -/
def runLoader (es : List LoaderEvent) : LoaderState :=
  es.foldl stepLoader initialLoader

/-- The script-injection invariant: at most one tag so far, and none unless
the DOM holds it. -/
def loaderScriptInv (st : LoaderState) : Prop :=
  st.scriptCount ≤ 1 ∧ (st.domHasScript = false → st.scriptCount = 0)

lemma stepLoader_preserves_scriptInv (st : LoaderState) (e : LoaderEvent)
    (h : loaderScriptInv st) : loaderScriptInv (stepLoader st e) := by
  obtain ⟨h1, h2⟩ := h
  cases e <;> unfold stepLoader ensureLoaded settle <;> repeat' split
  all_goals simp_all [loaderScriptInv]

lemma runLoader_scriptInv (es : List LoaderEvent) : loaderScriptInv (runLoader es) := by
  have base : loaderScriptInv initialLoader := by
    constructor <;> simp [initialLoader]
  rw [runLoader]
  induction es using List.reverseRecOn with
  | nil => simpa using base
  | append_singleton es e ih =>
      rw [List.foldl_append, List.foldl_cons, List.foldl_nil]
      exact stepLoader_preserves_scriptInv _ e ih

/-- C6: (i) while the API is not ready, a second call returns the very same
promise as the first (hence both resolve to the same handle) and changes no
loader state, so it injects nothing; (ii) over every event sequence from
process start at most one script tag is ever injected; (iii) when the
global handle is present, a call resolves immediately and changes no state
(injects nothing). -/
theorem loader_single_flight :
    (∀ st : LoaderState, st.apiReady = false →
        (ensureLoaded (ensureLoaded st).1).2 = (ensureLoaded st).2 ∧
        (ensureLoaded (ensureLoaded st).1).1 = (ensureLoaded st).1) ∧
    (∀ es : List LoaderEvent, (runLoader es).scriptCount ≤ 1) ∧
    (∀ st : LoaderState, st.apiReady = true → ensureLoaded st = (st, .immediate)) := by
  refine ⟨?_, ?_, ?_⟩
  · intro st hr
    cases hin : st.inFlight with
    | none => cases hd : st.domHasScript <;> simp [ensureLoaded, hr, hin, hd]
    | some id => simp [ensureLoaded, hr, hin]
  · intro es
    exact (runLoader_scriptInv es).1
  · intro st hr
    simp [ensureLoaded, hr]

/-- C6 witness: from process start, two calls share promise 0 and the
process has injected exactly one script tag. -/
theorem loader_single_flight_witness :
    (ensureLoaded (ensureLoaded initialLoader).1).2 = (ensureLoaded initialLoader).2 ∧
      (runLoader [LoaderEvent.call, LoaderEvent.call]).scriptCount ≤ 1 := by
  have h := loader_single_flight
  exact ⟨(h.1 initialLoader rfl).1, h.2.1 [LoaderEvent.call, LoaderEvent.call]⟩

/-- C7: on an unsettled in-flight promise with the API still absent, the
10-second timeout rejects it with the timeout error and the script error
rejects it with the load-failure error; both clear the memoized promise, so
the next call starts a fresh promise (a new id, not the failed one) instead
of returning the failed promise. -/
theorem loader_failure_clears_promise (st : LoaderState) (id : ℕ)
    (hin : st.inFlight = some id) (hun : List.lookup id st.outcomes = none)
    (hready : st.apiReady = false) (hfresh : id < st.nextPromiseId) :
    List.lookup id (stepLoader st .timeoutFires).outcomes = some POutcome.rejectedTimeout ∧
    (stepLoader st .timeoutFires).inFlight = none ∧
    (ensureLoaded (stepLoader st .timeoutFires)).2 = .pending st.nextPromiseId ∧
    st.nextPromiseId ≠ id ∧
    List.lookup id (stepLoader st .scriptFails).outcomes = some POutcome.rejectedLoadFailure ∧
    (stepLoader st .scriptFails).inFlight = none ∧
    (ensureLoaded (stepLoader st .scriptFails)).2 = .pending st.nextPromiseId := by
  have hu : unsettled st id = true := by simp [unsettled, hun]
  have htime : stepLoader st .timeoutFires =
      { settle st id .rejectedTimeout with inFlight := none } := by
    simp [stepLoader, hin, hu, hready]
  have hfail : stepLoader st .scriptFails =
      { settle st id .rejectedLoadFailure with inFlight := none } := by
    simp [stepLoader, hin, hu]
  refine ⟨?_, ?_, ?_, hfresh.ne', ?_, ?_, ?_⟩
  · rw [htime]; simp [settle]
  · rw [htime]
  · rw [htime]; simp [ensureLoaded, settle, hready]
  · rw [hfail]; simp [settle]
  · rw [hfail]
  · rw [hfail]; simp [ensureLoaded, settle, hready]

/-- C7 witness: after one call from process start, the in-flight promise 0
times out, is cleared, and a retry call opens fresh promise 1. -/
theorem loader_failure_clears_promise_witness :
    (stepLoader (runLoader [LoaderEvent.call]) LoaderEvent.timeoutFires).inFlight = none ∧
      (ensureLoaded (stepLoader (runLoader [LoaderEvent.call]) LoaderEvent.timeoutFires)).2
        = LoadResult.pending 1 := by
  have h := loader_failure_clears_promise (runLoader [LoaderEvent.call]) 0
    (by decide) (by decide) (by decide) (by decide)
  exact ⟨h.2.1, h.2.2.1⟩

end Spec2Proof
